import Mathlib

set_option maxRecDepth 2000

/-!
Shallow embedding of the checkout / settlement engine of
`src/attendee_checkout.py` (Flask blueprint `checkout_bp`).

Modelling conventions:
* MongoDB collections become Lean lists; a collection that may be absent
  (the code guards with `"tickets" in db.list_collection_names()`) is an
  `Option (List _)`, `none` meaning the collection does not exist yet.
* Monetary values (Python floats) are modelled as exact rationals `ℚ`;
  Python's `round(x, 6)` becomes round-half-to-even at 6 decimal places.
* Datetimes are modelled as integers (UTC instants); the ISO-string
  parsing helpers `_to_dt` / `_parse_sales_bound` are abstracted into the
  already-parsed `Option Int` bounds carried by a tier.
* BSON ObjectIds are modelled as their 24-hex-character string form;
  `_to_oid` succeeds exactly on such strings.
* `insert_one` ids are modelled by a `nextId : Nat` counter on the database.
-/

namespace Checkout

/-- Python `str.strip()` (default whitespace stripping), implemented on the
character list so that it evaluates inside the kernel. -/
def pyStrip (s : String) : String :=
  String.mk (((s.data.dropWhile Char.isWhitespace).reverse.dropWhile Char.isWhitespace).reverse)

/-- `s.startswith(pre)`, via `List.isPrefixOf` on the character lists. -/
def pyStartsWith (s pre : String) : Bool :=
  pre.data.isPrefixOf s.data

/-- A single hex digit, as accepted by `bson.ObjectId`. -/
def isHexChar (c : Char) : Bool :=
  c.isDigit || ('a' ≤ c && c ≤ 'f') || ('A' ≤ c && c ≤ 'F')

/-- `_to_oid` succeeds exactly when `ObjectId(str(x))` does: a
24-character hex string. -/
def isValidOid (s : String) : Bool :=
  s.length == 24 && s.data.all isHexChar

/-- Round half to even (Python's `round`) of a rational to an integer. -/
def rhe (x : ℚ) : ℤ :=
  let f := Rat.floor x
  let r := x - (f : ℚ)
  if r < 1/2 then f
  else if 1/2 < r then f + 1
  else if f % 2 = 0 then f else f + 1

/-- `round(x, USDC_DECIMALS)` with `USDC_DECIMALS = 6`. -/
def round6 (x : ℚ) : ℚ :=
  ((rhe (x * 1000000) : ℤ) : ℚ) / 1000000

/-- Network configuration record (one entry of the `NETS` dict). -/
structure NetCfg where
  chain_id : Int
  chain_id_hex : String
  chain_name : String
  rpc_urls : List String
  explorer : String
  usdc : String
deriving DecidableEq

/-- The hard-coded `NETS` dict of `attendee_checkout.py` (lines 15-34). -/
def NETS (key : String) : NetCfg :=
  if key == "sepolia" then
    ⟨84532, "0x14A34", "Base Sepolia", ["https://sepolia.base.org"],
     "https://sepolia.basescan.org", "0x0000000000000000000000000000000000000000"⟩
  else
    ⟨8453, "0x2105", "Base", ["https://mainnet.base.org"],
     "https://basescan.org", "0x833589fCD6eDb6E08f4c7C32D4f71b54bdA02913"⟩

/-- `ACTIVE_NETWORK = "mainnet"` (line 13). -/
def ACTIVE_NETWORK : String := "mainnet"

/-- `DEFAULT_PAYOUT_ADDRESS` (line 37). -/
def DEFAULT_PAYOUT_ADDRESS : String := "0x98f869c3d188740ef666bbd97436f89c929826f7"

/-- A ticket tier inside an event document.  `sales_start` / `sales_end`
are the parsed UTC bounds (`_parse_sales_bound` output), `none` when the
field is absent, empty, or unparseable. -/
structure Tier where
  name : String
  price : ℚ
  supply : Nat
  per_order_limit : Nat
  sales_start : Option Int
  sales_end : Option Int
deriving DecidableEq

/-- An event document.  The five optional address fields are the ones the
payout resolver reads at event level; the three organizer-id fields mirror
`organizer_id` / `organizer_user_id` / `organizer`. -/
structure Event where
  id : String
  status : String
  tiers : List Tier
  organizer_id : Option String
  organizer_user_id : Option String
  organizer : Option String
  payout_address : Option String
  organizer_payout_address : Option String
  treasury_address : Option String
  usdc_payout : Option String
  wallet_address : Option String
deriving DecidableEq

/-- The wallet-bearing fields projected out of an `organizers` or `users`
document by `_find_payout_address` (the dotted `billing.payout_address` and
`settings.payout_address` projections are flattened into single fields). -/
structure WalletDoc where
  payout_address : Option String
  wallet_address : Option String
  treasury_wallet : Option String
  usdc_wallet : Option String
  billing_payout_address : Option String
  settings_payout_address : Option String
deriving DecidableEq

/-- The empty document (`find_one(...) or {}`). -/
def emptyWalletDoc : WalletDoc := ⟨none, none, none, none, none, none⟩

/-- A row of the `tickets` collection, as inserted by `complete`. -/
structure Ticket where
  event_id : String
  tier_index : Nat
  attendee_id : String
  price : ℚ
  purchased_at : Int
  payment_id : Nat
  status : String
deriving DecidableEq

/-- A row of the `payments` collection, as inserted by `complete`
(lines 372-392); `id` models the generated `_id`. -/
structure Payment where
  id : Nat
  attendee_id : String
  organizer_id : Option String
  event_id : String
  tier_index : Nat
  quantity : Nat
  unit_price : ℚ
  amount : ℚ
  currency : String
  status : String
  method : String
  tx_hash : Option String
  payer : String
  pay_to : String
  chain_id : Int
  base_payment_id : Option String
  base_status : Option String
  base_status_raw : Option String
  created_at : Int
deriving DecidableEq

/-- A row of the `transactions` collection (lines 396-413). -/
structure Txn where
  kind : String
  attendee_id : String
  organizer_id : Option String
  event_id : String
  tier_index : Nat
  quantity : Nat
  amount : ℚ
  currency : String
  toAddr : String
  fromAddr : Option String
  tx_hash : Option String
  base_payment_id : Option String
  base_status : Option String
  chain_id : Int
  created_at : Int
  payment_id : Nat
deriving DecidableEq

/-- The database state.  `organizers`, `users` and `tickets` are optional
because the code checks `... in db.list_collection_names()` before reading
them; keyed collections are association lists from ObjectId string to doc. -/
structure Db where
  events : List Event
  tickets : Option (List Ticket)
  payments : List Payment
  transactions : List Txn
  organizers : Option (List (String × WalletDoc))
  users : Option (List (String × WalletDoc))
  nextId : Nat
deriving DecidableEq

/-- `find_one({"_id": oid})` on a keyed collection. -/
def lookupKV (l : List (String × WalletDoc)) (k : String) : Option WalletDoc :=
  (l.find? (fun kv => kv.1 == k)).map (fun kv => kv.2)

/-- `db.events.find_one({"_id": oid, "status": "published"})`. -/
def findEvent (db : Db) (event_id : String) : Option Event :=
  db.events.find? (fun e => e.id == event_id && e.status == "published")

/-- `_tier_sales_open` (lines 80-87): open unless `now` is strictly before
a present start bound or strictly after a present end bound. -/
def tierSalesOpen (tier : Tier) (now : Int) : Bool :=
  !(match tier.sales_start with | some s => decide (now < s) | none => false)
  && !(match tier.sales_end with | some e => decide (e < now) | none => false)

/-- The sold count of `_tier_availability`: number of ticket rows for the
(event, tier) pair, 0 when the `tickets` collection does not exist. -/
def soldCount (db : Db) (event_id : String) (tier_idx : Nat) : Nat :=
  match db.tickets with
  | none => 0
  | some ts => (ts.filter (fun t => t.event_id == event_id && t.tier_index == tier_idx)).length

/-- Result record of `_tier_availability` (lines 89-95). -/
structure Avail where
  supply : Nat
  sold : Nat
  available : Nat
deriving DecidableEq

/-- `_tier_availability`: `available = max(0, supply - sold) if supply else 0`
(natural-number subtraction already truncates at 0). -/
def tierAvailability (db : Db) (event_id : String) (tier_idx : Nat) (tier : Tier) : Avail :=
  let supply := tier.supply
  let sold := soldCount db event_id tier_idx
  let available := if supply == 0 then 0 else supply - sold
  ⟨supply, sold, available⟩

/-- `_norm_addr` (lines 100-102): strip, then keep only strings starting
with `0x` of total length 42 (hex-ness of the 40 tail characters is NOT
checked by the source). -/
def normAddr (addr : Option String) : String :=
  let a := pyStrip (addr.getD "")
  if pyStartsWith a "0x" && a.length == 42 then a else ""

/-- `_pick` (lines 104-108): first non-empty (after strip) string. -/
def pick (vals : List (Option String)) : String :=
  match vals with
  | [] => ""
  | v :: rest =>
    match v with
    | some s => if pyStrip s == "" then pick rest else pyStrip s
    | none => pick rest

/-- Step 1 of `_find_payout_address` (lines 119-128): the first non-empty
of the five event-level fields, returned only if it validates; `""`
otherwise (note: a non-empty but invalid first field shadows the rest). -/
def eventLevelCand (ev : Event) : String :=
  let cand := pick [ev.payout_address, ev.organizer_payout_address,
                    ev.treasury_address, ev.usdc_payout, ev.wallet_address]
  if normAddr (some cand) == "" then "" else cand

/-- Python `a or b` over optional strings (empty string is falsy). -/
def orFalsy (a b : Option String) : Option String :=
  match a with
  | some s => if s == "" then b else some s
  | none => b

/-- `oid = _to_oid(ev.get("organizer_id") or ev.get("organizer_user_id")
or ev.get("organizer"))` (lines 131-132). -/
def evOrgOid (ev : Event) : Option String :=
  (orFalsy ev.organizer_id (orFalsy ev.organizer_user_id ev.organizer)).bind
    (fun s => if isValidOid s then some s else none)

/-- The candidate scan applied to an `organizers` or `users` document:
the four direct keys in order, then `billing.payout_address`, then
`settings.payout_address` (lines 147-158 and 174-185). -/
def docCand (d : WalletDoc) : String :=
  let c1 := normAddr d.payout_address
  if c1 != "" then c1 else
  let c2 := normAddr d.wallet_address
  if c2 != "" then c2 else
  let c3 := normAddr d.treasury_wallet
  if c3 != "" then c3 else
  let c4 := normAddr d.usdc_wallet
  if c4 != "" then c4 else
  let c5 := normAddr d.billing_payout_address
  if c5 != "" then c5 else
  normAddr d.settings_payout_address

/-- Step 2 of `_find_payout_address` (lines 135-158): consult the
`organizers` collection when the oid resolved and the collection exists. -/
def orgsCand (db : Db) (oid : Option String) : String :=
  match oid, db.organizers with
  | some k, some l => docCand ((lookupKV l k).getD emptyWalletDoc)
  | _, _ => ""

/-- Step 3 of `_find_payout_address` (lines 161-185): same scan over the
`users` collection. -/
def usersCand (db : Db) (oid : Option String) : String :=
  match oid, db.users with
  | some k, some l => docCand ((lookupKV l k).getD emptyWalletDoc)
  | _, _ => ""

/-- `_find_payout_address` (lines 118-188): event fields, then organizers
collection, then users collection, then the hardcoded fallback. -/
def findPayoutAddress (db : Db) (ev : Event) : String :=
  if eventLevelCand ev != "" then eventLevelCand ev
  else
    let oid := evOrgOid ev
    if orgsCand db oid != "" then orgsCand db oid
    else if usersCand db oid != "" then usersCand db oid
    else normAddr (some DEFAULT_PAYOUT_ADDRESS)

/-- The JSON payload of `POST /checkout/complete` (lines 320-333), after
the `int(...)` coercions.  `amountUSDC` is the result of
`float(str(data.get("amountUSDC") or "0"))`: `none` models a string that
fails to parse as a float (an absent field parses as `some 0`). -/
structure CompletePayload where
  eventId : Option String
  tierIdx : Int
  quantity : Int
  fromAddr : String
  toAddr : String
  chainId : Int
  amountUSDC : Option ℚ
  basePaymentId : String
  baseStatus : String
  baseStatusRaw : Option String
  txHash : String
deriving DecidableEq

/-- Outcome of the `/checkout/complete` route: a JSON error with its HTTP
status, or the success body carrying the new payment id and the (possibly
absent) base payment id. -/
inductive CompleteResult where
  | err (code : String) (status : Nat)
  | ok (payment_id : Nat) (base_payment_id : Option String)
deriving DecidableEq

/-- `paid_amount` (lines 358-361): `round(float(amount_u), 6)`, or `-1`
when the float conversion raises. -/
def paidAmount (p : CompletePayload) : ℚ :=
  match p.amountUSDC with
  | none => -1
  | some a => round6 a

/-- The data `complete` has in hand when every check has passed: the
session uid, the published event, the in-bounds tier index and tier, and
the expected amount. -/
structure Verified where
  uid : String
  ev : Event
  tier_idx : Nat
  tier : Tier
  expected : ℚ
deriving DecidableEq

/-- The check phase of `complete` (lines 317-366): session, payload
validity, ObjectId parse, published-event lookup, tier bounds,
availability, and the amount tolerance.  No database write happens here;
`complete` writes only after all checks pass. -/
def completeDecide (db : Db) (uid : Option String) (p : CompletePayload) :
    Except (String × Nat) Verified :=
  match uid with
  | none => .error ("not_logged_in", 401)
  | some u =>
    match p.eventId with
    | none => .error ("invalid_payload", 400)
    | some eid =>
      if ¬(eid ≠ "" ∧ 0 < p.quantity ∧ p.chainId ≠ 0 ∧ pyStrip p.toAddr ≠ "") then
        .error ("invalid_payload", 400)
      else if ¬ isValidOid eid = true then .error ("bad_event", 400)
      else
        match findEvent db eid with
        | none => .error ("not_found", 404)
        | some ev =>
          if p.tierIdx < 0 then .error ("bad_tier", 400)
          else
            match ev.tiers.get? p.tierIdx.toNat with
            | none => .error ("bad_tier", 400)
            | some tier =>
              let avail := tierAvailability db ev.id p.tierIdx.toNat tier
              if (avail.available : Int) < p.quantity then .error ("sold_out", 409)
              else
                let expected := round6 (tier.price * ((p.quantity : ℤ) : ℚ))
                if 0 < expected ∧ 1/1000000 < |paidAmount p - expected| then
                  .error ("amount_mismatch", 400)
                else
                  .ok ⟨u, ev, p.tierIdx.toNat, tier, expected⟩

/-- `x or None` on a stripped string field. -/
def strOrNone (s : String) : Option String :=
  if s == "" then none else some s

/-- The write phase of `complete` (lines 368-432): insert one payment,
one transaction row, and `quantity` ticket rows, then return the success
body.  The inserts are separate sequential operations in the source; this
function applies them to `db` in the source's order. -/
def completeWrites (db : Db) (p : CompletePayload) (v : Verified) (now : Int) :
    CompleteResult × Db :=
  let payment_status := if pyStrip p.baseStatus != "" then "paid" else "onchain_confirmed"
  let pay : Payment :=
    { id := db.nextId, attendee_id := v.uid, organizer_id := v.ev.organizer_id,
      event_id := v.ev.id, tier_index := v.tier_idx, quantity := p.quantity.toNat,
      unit_price := v.tier.price, amount := v.expected, currency := "USDC",
      status := payment_status, method := "base_pay",
      tx_hash := strOrNone (pyStrip p.txHash), payer := pyStrip p.fromAddr,
      pay_to := pyStrip p.toAddr, chain_id := p.chainId,
      base_payment_id := strOrNone (pyStrip p.basePaymentId),
      base_status := strOrNone (pyStrip p.baseStatus),
      base_status_raw := p.baseStatusRaw, created_at := now }
  let txn : Txn :=
    { kind := "ticket_purchase", attendee_id := v.uid, organizer_id := v.ev.organizer_id,
      event_id := v.ev.id, tier_index := v.tier_idx, quantity := p.quantity.toNat,
      amount := v.expected, currency := "USDC", toAddr := pyStrip p.toAddr,
      fromAddr := strOrNone (pyStrip p.fromAddr), tx_hash := strOrNone (pyStrip p.txHash),
      base_payment_id := strOrNone (pyStrip p.basePaymentId),
      base_status := strOrNone (pyStrip p.baseStatus), chain_id := p.chainId,
      created_at := now, payment_id := db.nextId }
  let tkt : Ticket :=
    { event_id := v.ev.id, tier_index := v.tier_idx, attendee_id := v.uid,
      price := v.tier.price, purchased_at := now, payment_id := db.nextId,
      status := "valid" }
  let db1 : Db :=
    { db with payments := db.payments ++ [pay],
              transactions := db.transactions ++ [txn],
              tickets := some ((db.tickets.getD []) ++ List.replicate p.quantity.toNat tkt),
              nextId := db.nextId + 1 }
  (.ok db.nextId (strOrNone (pyStrip p.basePaymentId)), db1)

/-- `complete` with the check phase reading `checkDb` and the write phase
applied to `applyDb`.  The availability read (a `count_documents` round
trip, line 93) and the inserts (lines 392-425) are distinct database
operations in the source, so under concurrent callers the state written
to can differ from the state the check read; `completeAt db db` is the
single-caller run. -/
def completeAt (checkDb applyDb : Db) (uid : Option String) (p : CompletePayload)
    (now : Int) : CompleteResult × Db :=
  match completeDecide checkDb uid p with
  | .error es => (.err es.1 es.2, applyDb)
  | .ok v => completeWrites applyDb p v now

/-- The `/checkout/complete` route, sequential (single-caller) semantics. -/
def completeRun (db : Db) (uid : Option String) (p : CompletePayload) (now : Int) :
    CompleteResult × Db :=
  completeAt db db uid p now

/-- Outcome of the `/checkout/start` route.  Redirects and flashes are
collapsed to their decision; `quote` carries the session stash fields
`quantity`, `unit_price`, `amount`, `max_allowed`, `payout`, `chain_id`.
The `int(...)`-parse-failure redirect (invalid selection) is the excluded
UI boundary and is not modelled: inputs arrive already parsed. -/
inductive StartResult where
  | redirectLogin
  | notFound
  | badTier
  | windowClosed
  | soldOut
  | payoutMissing
  | quote (quantity : Nat) (unit_price amount : ℚ) (max_allowed : Nat)
      (payout : String) (chain_id : Int)
deriving DecidableEq

/-- Is the start outcome a quote? -/
def isQuote : StartResult → Bool
  | .quote _ _ _ _ _ _ => true
  | _ => false

/-- The quantity clamp of `start` (lines 237-241):
`qty = qty_req or 1; qty = min(qty, max_allowed); qty = max(qty, 1)`,
written exactly as the source's two conditional assignments. -/
def startClamp (qty_req : Int) (max_allowed : Nat) : Int :=
  let q0 : Int := if qty_req = 0 then 1 else qty_req
  let q1 : Int := if (max_allowed : Int) < q0 then (max_allowed : Int) else q0
  if q1 < 1 then 1 else q1

/-- The `/checkout/start` route (lines 193-306): login, event lookup,
tier bounds, sales window, availability, quantity clamp, amount, payout
resolution, and the quoted view model. -/
def startRun (db : Db) (uid : Option String) (event_id : String)
    (tier_idx qty_req : Int) (now : Int) : StartResult :=
  match uid with
  | none => .redirectLogin
  | some _ =>
    if ¬ isValidOid event_id = true then .notFound
    else
      match findEvent db event_id with
      | none => .notFound
      | some ev =>
        if tier_idx < 0 then .badTier
        else
          match ev.tiers.get? tier_idx.toNat with
          | none => .badTier
          | some tier =>
            if ¬ tierSalesOpen tier now = true then .windowClosed
            else
              let avail := tierAvailability db ev.id tier_idx.toNat tier
              if avail.available = 0 then .soldOut
              else
                let max_allowed := if 0 < tier.per_order_limit then tier.per_order_limit
                                   else avail.available
                let qty := startClamp qty_req max_allowed
                let amount := round6 (tier.price * ((qty : ℤ) : ℚ))
                let payout := findPayoutAddress db ev
                if payout = "" then .payoutMissing
                else .quote qty.toNat tier.price amount max_allowed payout
                       (NETS ACTIVE_NETWORK).chain_id

/-- The supply of the tier a completion call would act on: the tier at
`idx` of the published event with id `eid`. -/
def tierSupplyAt (db : Db) (eid : String) (idx : Nat) : Option Nat :=
  (findEvent db eid).bind (fun ev => (ev.tiers.get? idx).map (fun t => t.supply))

/-- Sequential execution of a list of completion calls
(uid, payload, timestamp), each seeing the state the previous one left. -/
def runSeq (db : Db) (calls : List (Option String × CompletePayload × Int)) : Db :=
  calls.foldl (fun d c => (completeRun d c.1 c.2.1 c.2.2).2) db

lemma findEvent_eq_id {db : Db} {eid : String} {ev : Event}
    (h : findEvent db eid = some ev) : ev.id = eid ∧ ev.status = "published" := by
  have h2 := List.find?_some h
  simp only [Bool.and_eq_true, beq_iff_eq] at h2
  exact h2

lemma completeRun_err {db : Db} {u : Option String} {p : CompletePayload} {es : String × Nat}
    (h : completeDecide db u p = .error es) (now : Int) :
    completeRun db u p now = (.err es.1 es.2, db) := by
  unfold completeRun completeAt
  rw [h]

lemma completeRun_ok {db : Db} {u : Option String} {p : CompletePayload} {v : Verified}
    (h : completeDecide db u p = .ok v) (now : Int) :
    completeRun db u p now = completeWrites db p v now := by
  unfold completeRun completeAt
  rw [h]

lemma completeDecide_ok_facts {db : Db} {u : Option String} {p : CompletePayload} {v : Verified}
    (h : completeDecide db u p = .ok v) :
    ∃ eid, p.eventId = some eid ∧ findEvent db eid = some v.ev ∧
      v.tier_idx = p.tierIdx.toNat ∧ v.ev.tiers.get? p.tierIdx.toNat = some v.tier ∧
      0 < p.quantity ∧
      (p.quantity : Int) ≤ ((tierAvailability db v.ev.id v.tier_idx v.tier).available : Int) := by
  match u with
  | none => simp [completeDecide] at h
  | some u0 =>
    simp only [completeDecide] at h
    split at h
    · exact absurd h (by simp)
    next eid hpe =>
    split at h
    · exact absurd h (by simp)
    next hvalid =>
    split at h
    · exact absurd h (by simp)
    next hoid =>
    split at h
    · exact absurd h (by simp)
    next ev hev =>
    split at h
    · exact absurd h (by simp)
    next hti =>
    split at h
    · exact absurd h (by simp)
    next tier hget =>
    split at h
    · exact absurd h (by simp)
    next hav =>
    split at h
    · exact absurd h (by simp)
    next hamt =>
    simp only [Except.ok.injEq] at h
    subst h
    rw [not_not] at hvalid
    exact ⟨eid, hpe, hev, rfl, hget, hvalid.2.1, le_of_not_lt hav⟩

lemma completeDecide_error_codes {db : Db} {u : Option String} {p : CompletePayload}
    {es : String × Nat} (h : completeDecide db u p = .error es) :
    es.1 = "not_logged_in" ∨ es.1 = "invalid_payload" ∨ es.1 = "bad_event" ∨
    es.1 = "not_found" ∨ es.1 = "bad_tier" ∨ es.1 = "sold_out" ∨ es.1 = "amount_mismatch" := by
  match u with
  | none =>
    simp only [completeDecide, Except.error.injEq] at h
    subst h; simp
  | some u0 =>
    simp only [completeDecide] at h
    repeat' split at h
    all_goals
      first
        | (simp only [Except.error.injEq] at h; subst h; simp)
        | simp at h

lemma length_filter_replicate {α : Type} (n : Nat) (a : α) (q : α → Bool) :
    ((List.replicate n a).filter q).length = if q a = true then n else 0 := by
  induction n with
  | zero => simp
  | succ m ih =>
    rw [List.replicate_succ, List.filter_cons]
    by_cases hq : q a = true
    · rw [if_pos hq] at ih ⊢
      simp [hq, ih]
    · rw [if_neg hq] at ih ⊢
      simp only [Bool.not_eq_true] at hq
      simp [hq, ih]

lemma soldCount_writes (db : Db) (p : CompletePayload) (v : Verified) (now : Int)
    (eid : String) (idx : Nat) :
    soldCount (completeWrites db p v now).2 eid idx
      = soldCount db eid idx
        + (if v.ev.id = eid ∧ v.tier_idx = idx then p.quantity.toNat else 0) := by
  unfold completeWrites soldCount
  simp only [List.filter_append, List.length_append, length_filter_replicate,
    Bool.and_eq_true, beq_iff_eq]
  cases db.tickets <;> simp

lemma completeWrites_events (db : Db) (p : CompletePayload) (v : Verified) (now : Int) :
    (completeWrites db p v now).2.events = db.events := by
  simp [completeWrites]

lemma completeRun_events (db : Db) (u : Option String) (p : CompletePayload) (now : Int) :
    (completeRun db u p now).2.events = db.events := by
  cases h : completeDecide db u p with
  | error es => rw [completeRun_err h]
  | ok v => rw [completeRun_ok h]; exact completeWrites_events db p v now

lemma tierSupplyAt_completeRun (db : Db) (u : Option String) (p : CompletePayload)
    (now : Int) (eid : String) (idx : Nat) :
    tierSupplyAt (completeRun db u p now).2 eid idx = tierSupplyAt db eid idx := by
  unfold tierSupplyAt findEvent
  rw [completeRun_events]

lemma sold_le_after (db : Db) (u : Option String) (p : CompletePayload) (now : Int)
    (eid : String) (idx S : Nat)
    (hS : tierSupplyAt db eid idx = some S) (h : soldCount db eid idx ≤ S) :
    soldCount (completeRun db u p now).2 eid idx ≤ S := by
  cases hd : completeDecide db u p with
  | error es => rw [completeRun_err hd]; exact h
  | ok v =>
    rw [completeRun_ok hd, soldCount_writes]
    by_cases hc : v.ev.id = eid ∧ v.tier_idx = idx
    · rw [if_pos hc]
      obtain ⟨eid0, _, hev, hti, hget, hq, hle⟩ := completeDecide_ok_facts hd
      obtain ⟨hid, _⟩ := findEvent_eq_id hev
      have hev2 : findEvent db eid = some v.ev := by rw [← hc.1, hid]; exact hev
      have hSs : S = v.tier.supply := by
        have h5 : tierSupplyAt db eid idx
            = (v.ev.tiers.get? idx).map (fun t => t.supply) := by
          unfold tierSupplyAt
          rw [hev2]
          rfl
        rw [h5, ← hc.2, hti, hget] at hS
        simp at hS
        omega
      have hsold : soldCount db v.ev.id v.tier_idx = soldCount db eid idx := by
        rw [hc.1, hc.2]
      unfold tierAvailability at hle
      simp only at hle
      rw [hsold] at hle
      by_cases hz : v.tier.supply = 0
      · rw [if_pos (by simpa using hz)] at hle
        omega
      · rw [if_neg (by simpa using hz)] at hle
        omega
    · rw [if_neg hc]
      simpa using h

/-- C2: for every (event, tier) pair the invariant `sold ≤ supply` is
preserved by every sequential completion call: a ticket count at or below
the tier's supply stays at or below it, and when the requested quantity
exceeds the available count (supply minus sold) the call fails with
`sold_out` and leaves the database unchanged, so the number of ticket rows
for a tier never exceeds that tier's supply. -/
theorem tier_capacity_invariant :
    (∀ (db : Db) (u : Option String) (p : CompletePayload) (now : Int)
       (eid : String) (idx S : Nat),
      tierSupplyAt db eid idx = some S → soldCount db eid idx ≤ S →
      soldCount (completeRun db u p now).2 eid idx ≤ S) ∧
    (∀ (db : Db) (u eid : String) (ti qty cid : Int) (fa ta : String)
       (amt : Option ℚ) (bpid bstat : String) (braw : Option String) (th : String)
       (now : Int) (ev : Event) (tier : Tier),
      eid ≠ "" → 0 < qty → cid ≠ 0 → pyStrip ta ≠ "" → isValidOid eid = true →
      findEvent db eid = some ev → ¬ ti < 0 → ev.tiers.get? ti.toNat = some tier →
      ((tierAvailability db ev.id ti.toNat tier).available : Int) < qty →
      completeRun db (some u) ⟨some eid, ti, qty, fa, ta, cid, amt, bpid, bstat, braw, th⟩ now
        = (.err "sold_out" 409, db)) := by
  constructor
  · intro db u p now eid idx S hS h
    exact sold_le_after db u p now eid idx S hS h
  · intro db u eid ti qty cid fa ta amt bpid bstat braw th now ev tier
    intro heid hq hcid hta hoid hev hti hget hav
    have hd : completeDecide db (some u)
        ⟨some eid, ti, qty, fa, ta, cid, amt, bpid, bstat, braw, th⟩
        = .error ("sold_out", 409) := by
      have hget2 : ev.tiers[ti.toNat]? = some tier := by
        rw [← List.get?_eq_getElem?]; exact hget
      simp only [completeDecide]
      simp [heid, hq, hcid, hta, hoid, hev, hti, hget2, hav]
    rw [completeRun_err hd]

def tierW2 : Tier := ⟨"GA", 10, 2, 0, none, none⟩

def eidW : String := "68a9252b922451518430a216"

def evW2 : Event := ⟨eidW, "published", [tierW2], none, none, none,
  some DEFAULT_PAYOUT_ADDRESS, none, none, none, none⟩

def dbW2 : Db := ⟨[evW2], none, [], [], none, none, 0⟩

def pW2 : CompletePayload :=
  ⟨some eidW, 0, 1, "", DEFAULT_PAYOUT_ADDRESS, 8453, some 10, "bpW2", "succeeded", none, ""⟩

def tierW2s : Tier := ⟨"GA", 10, 0, 0, none, none⟩

def evW2s : Event := ⟨eidW, "published", [tierW2s], none, none, none,
  some DEFAULT_PAYOUT_ADDRESS, none, none, none, none⟩

def dbW2s : Db := ⟨[evW2s], none, [], [], none, none, 0⟩

/-- Witness for C2: with supply 2 and one unit bought the sold count stays
at or below 2, and a 1-unit claim against a supply-0 tier is refused with
`sold_out` and writes nothing. -/
theorem tier_capacity_invariant_witness :
    soldCount (completeRun dbW2 (some "u1") pW2 0).2 eidW 0 ≤ 2 ∧
    completeRun dbW2s (some "u1")
        ⟨some eidW, 0, 1, "", DEFAULT_PAYOUT_ADDRESS, 8453, some 10, "bpW2", "succeeded",
         none, ""⟩ 0
      = (.err "sold_out" 409, dbW2s) :=
  ⟨tier_capacity_invariant.1 dbW2 (some "u1") pW2 0 eidW 0 2
      (by with_unfolding_all decide) (by with_unfolding_all decide),
   tier_capacity_invariant.2 dbW2s "u1" eidW 0 1 8453 "" DEFAULT_PAYOUT_ADDRESS
      (some 10) "bpW2" "succeeded" none "" 0 evW2s tierW2s
      (by decide) (by decide) (by decide) (by with_unfolding_all decide)
      (by with_unfolding_all decide) (by with_unfolding_all decide) (by decide)
      (by with_unfolding_all decide) (by with_unfolding_all decide)⟩

/-- C4 (amended): inventory is read (a count of ticket rows) and written
(separate inserts) in distinct steps; under sequential execution any
number of completion calls still never push the sold count of a tier past
its supply. -/
theorem sequential_reservations_bound :
    ∀ (calls : List (Option String × CompletePayload × Int)) (db : Db)
      (eid : String) (idx S : Nat),
      tierSupplyAt db eid idx = some S → soldCount db eid idx ≤ S →
      soldCount (runSeq db calls) eid idx ≤ S := by
  intro calls
  induction calls with
  | nil =>
    intro db eid idx S hS h
    simpa [runSeq] using h
  | cons c cs ih =>
    intro db eid idx S hS h
    have h1 : runSeq db (c :: cs) = runSeq (completeRun db c.1 c.2.1 c.2.2).2 cs := by
      simp [runSeq]
    rw [h1]
    apply ih
    · rw [tierSupplyAt_completeRun]; exact hS
    · exact sold_le_after db c.1 c.2.1 c.2.2 eid idx S hS h

def tierC4 : Tier := ⟨"GA", 10, 1, 0, none, none⟩

def evC4 : Event := ⟨eidW, "published", [tierC4], none, none, none,
  some DEFAULT_PAYOUT_ADDRESS, none, none, none, none⟩

def dbC4 : Db := ⟨[evC4], none, [], [], none, none, 0⟩

def pC4 : CompletePayload :=
  ⟨some eidW, 0, 1, "", DEFAULT_PAYOUT_ADDRESS, 8453, some 10, "bpC4", "succeeded", none, ""⟩

/-- C4 counterexample: against a tier with supply 1, the interleaving in
which both unit completions run their availability count against the
initial state before either insert lands lets both succeed, leaving a
sold count of 2 — the check and the increment are not one atomic step. -/
theorem interleaved_oversell_cex :
    (completeAt dbC4 dbC4 (some "u1") pC4 0).1 = .ok 0 (some "bpC4") ∧
    (completeAt dbC4 (completeAt dbC4 dbC4 (some "u1") pC4 0).2 (some "u2") pC4 1).1
      = .ok 1 (some "bpC4") ∧
    soldCount (completeAt dbC4 (completeAt dbC4 dbC4 (some "u1") pC4 0).2
        (some "u2") pC4 1).2 eidW 0 = 2 ∧
    tierSupplyAt dbC4 eidW 0 = some 1 := by
  with_unfolding_all decide

/-- Witness for C4: three sequential unit purchases against a supply-2
tier leave at most 2 tickets sold. -/
theorem sequential_reservations_bound_witness :
    soldCount (runSeq dbW2
        [(some "u1", pW2, 0), (some "u1", pW2, 1), (some "u1", pW2, 2)]) eidW 0 ≤ 2 :=
  sequential_reservations_bound [(some "u1", pW2, 0), (some "u1", pW2, 1), (some "u1", pW2, 2)]
    dbW2 eidW 0 2 (by with_unfolding_all decide) (by with_unfolding_all decide)

/-- C1 (amended): the completion operation performs no idempotency lookup
on the external payment identifier: its outcome is entirely independent of
the existing `payments` collection, and every successful call appends a
fresh Payment row. -/
theorem complete_not_idempotent :
    (∀ (db : Db) (P : List Payment) (u : Option String) (p : CompletePayload) (now : Int),
      (completeRun { db with payments := P } u p now).1 = (completeRun db u p now).1) ∧
    (∀ (db : Db) (u : Option String) (p : CompletePayload) (now : Int) (pid : Nat)
       (b : Option String),
      (completeRun db u p now).1 = .ok pid b →
      (completeRun db u p now).2.payments.length = db.payments.length + 1) := by
  constructor
  · intro db P u p now
    have hD : completeDecide { db with payments := P } u p = completeDecide db u p := rfl
    unfold completeRun completeAt
    rw [hD]
    cases h : completeDecide db u p with
    | error es => rfl
    | ok v => simp [completeWrites]
  · intro db u p now pid b hok
    cases h : completeDecide db u p with
    | error es =>
      rw [completeRun_err h] at hok
      simp at hok
    | ok v =>
      rw [completeRun_ok h]
      simp [completeWrites]

def payPrior : Payment :=
  ⟨99, "u0", none, eidW, 0, 1, 10, 10, "USDC", "paid", "base_pay", none, "",
   DEFAULT_PAYOUT_ADDRESS, 8453, some "bpW2", some "succeeded", none, 0⟩

/-- C1 counterexample: running the same completion claim (same external
payment id `bpW2`) twice returns two distinct payment ids and leaves two
Payment rows carrying that external id and two Ticket rows — the second
call is not a no-op replay of the first. -/
theorem complete_double_settlement_cex :
    (completeRun dbW2 (some "u1") pW2 0).1 = .ok 0 (some "bpW2") ∧
    (completeRun (completeRun dbW2 (some "u1") pW2 0).2 (some "u1") pW2 1).1
      = .ok 1 (some "bpW2") ∧
    ((completeRun (completeRun dbW2 (some "u1") pW2 0).2 (some "u1") pW2 1).2.payments.filter
        (fun q => q.base_payment_id == some "bpW2")).length = 2 ∧
    ((completeRun (completeRun dbW2 (some "u1") pW2 0).2
        (some "u1") pW2 1).2.tickets.getD []).length = 2 := by
  with_unfolding_all decide

/-- Witness for C1: a pre-existing Payment with the same external payment
id does not change the outcome, and the successful call appends one
Payment row. -/
theorem complete_not_idempotent_witness :
    (completeRun { dbW2 with payments := [payPrior] } (some "u1") pW2 0).1
      = (completeRun dbW2 (some "u1") pW2 0).1 ∧
    (completeRun dbW2 (some "u1") pW2 0).2.payments.length = dbW2.payments.length + 1 :=
  ⟨complete_not_idempotent.1 dbW2 [payPrior] (some "u1") pW2 0,
   complete_not_idempotent.2 dbW2 (some "u1") pW2 0 0 (some "bpW2")
     (by with_unfolding_all decide)⟩

/-- C3 (amended): in the sequential model a failing completion call
writes nothing, and a successful one writes exactly one Payment whose
status is `paid` or `onchain_confirmed` (never `settled`), one Transaction
row mirroring its quantity and amount, and exactly `quantity` Ticket rows,
each `valid` and referencing the new Payment id — so an observer sees
either zero or `quantity` tickets for that payment after any call.  The
three inserts are separate sequential operations, not one transaction. -/
theorem settlement_records_shape :
    ∀ (db : Db) (u : Option String) (p : CompletePayload) (now : Int),
      (∀ e s, (completeRun db u p now).1 = .err e s → (completeRun db u p now).2 = db) ∧
      (∀ pid b, (completeRun db u p now).1 = .ok pid b →
        pid = db.nextId ∧ 0 < p.quantity ∧
        ∃ pay txn tkt,
          (completeRun db u p now).2.payments = db.payments ++ [pay] ∧
          pay.id = pid ∧ (pay.status = "paid" ∨ pay.status = "onchain_confirmed") ∧
          pay.quantity = p.quantity.toNat ∧
          (completeRun db u p now).2.transactions = db.transactions ++ [txn] ∧
          txn.payment_id = pid ∧ txn.kind = "ticket_purchase" ∧
          txn.quantity = pay.quantity ∧ txn.amount = pay.amount ∧
          (completeRun db u p now).2.tickets
            = some ((db.tickets.getD []) ++ List.replicate p.quantity.toNat tkt) ∧
          tkt.status = "valid" ∧ tkt.payment_id = pid ∧ tkt.event_id = pay.event_id) := by
  intro db u p now
  constructor
  · intro e s he
    cases h : completeDecide db u p with
    | error es => rw [completeRun_err h]
    | ok v =>
      rw [completeRun_ok h] at he
      simp [completeWrites] at he
  · intro pid b hok
    cases h : completeDecide db u p with
    | error es =>
      rw [completeRun_err h] at hok
      simp at hok
    | ok v =>
      obtain ⟨eid0, _, _, _, _, hq, _⟩ := completeDecide_ok_facts h
      have hpid : pid = db.nextId := by
        rw [completeRun_ok h] at hok
        simp [completeWrites] at hok
        omega
      subst hpid
      have hstatus :
          (if pyStrip p.baseStatus != "" then "paid" else "onchain_confirmed")
            = "paid" ∨
          (if pyStrip p.baseStatus != "" then "paid" else "onchain_confirmed")
            = "onchain_confirmed" := by
        by_cases hb : (pyStrip p.baseStatus != "") = true
        · left; rw [if_pos hb]
        · right; rw [if_neg hb]
      rw [completeRun_ok h]
      exact ⟨rfl, hq, _, _, _, rfl, rfl, hstatus, rfl, rfl, rfl, rfl, rfl, rfl, rfl,
        rfl, rfl, rfl⟩

/-- C3 counterexample: a successful settlement whose single Payment row
has status `paid`, not the `settled` status the claim requires. -/
theorem settlement_status_cex :
    (completeRun dbW2 (some "u1") pW2 7).1 = .ok 0 (some "bpW2") ∧
    (completeRun dbW2 (some "u1") pW2 7).2.payments.map (fun q => q.status) = ["paid"] ∧
    ("paid" : String) ≠ "settled" := by
  with_unfolding_all decide

/-- Witness for C3: the success case of the record-shape theorem at a
concrete settlement. -/
theorem settlement_records_shape_witness :
    (completeRun dbW2 (some "u1") pW2 5).1 = .ok 0 (some "bpW2") ∧
    (completeRun dbW2 (some "u1") pW2 5).2.payments.length = dbW2.payments.length + 1 := by
  have hok : (completeRun dbW2 (some "u1") pW2 5).1 = .ok 0 (some "bpW2") := by
    with_unfolding_all decide
  have h2 := (settlement_records_shape dbW2 (some "u1") pW2 5).2 0 (some "bpW2") hok
  obtain ⟨-, -, pay, txn, tkt, hp, -⟩ := h2
  refine ⟨hok, ?_⟩
  rw [hp]
  simp

/-- Modelled from the spec's words (claim C5) for comparison only: clamp
the requested quantity to
`max(1, min(requestedQuantity, per_order_limit_or_available, available))`. -/
def specClampQuantity (requested : Int) (per_order_limit available : Nat) : Int :=
  max 1 (min requested
    (min (if 0 < per_order_limit then (per_order_limit : Int) else (available : Int))
      (available : Int)))

/-- C5 (amended): a successful quote carries quantity
`startClamp qty_req max_allowed`, which equals
`max(1, min(requested-or-1, max_allowed))` where `max_allowed` is the
per-order limit when positive and otherwise the available count — the
available count is NOT re-consulted when a per-order limit is set; and the
requested quantity never changes whether the call succeeds, only how many
units are quoted. -/
theorem start_quantity_clamp :
    (∀ (db : Db) (u eid : String) (ti qreq now : Int) (q : Nat) (up amt : ℚ)
       (ma : Nat) (payout : String) (cid : Int),
      startRun db (some u) eid ti qreq now = .quote q up amt ma payout cid →
      q = (startClamp qreq ma).toNat) ∧
    (∀ (qreq : Int) (ma : Nat),
      startClamp qreq ma = max 1 (min (if qreq = 0 then 1 else qreq) (ma : Int))) ∧
    (∀ (db : Db) (u : Option String) (eid : String) (ti q1 q2 now : Int),
      isQuote (startRun db u eid ti q1 now) = isQuote (startRun db u eid ti q2 now)) := by
  refine ⟨?_, ?_, ?_⟩
  · intro db u eid ti qreq now q up amt ma payout cid h
    simp only [startRun] at h
    split at h
    · exact absurd h (by simp)
    next hoid =>
    split at h
    · exact absurd h (by simp)
    next ev hev =>
    split at h
    · exact absurd h (by simp)
    next hti =>
    split at h
    · exact absurd h (by simp)
    next tier hget =>
    split at h
    · exact absurd h (by simp)
    next hw =>
    split at h
    · exact absurd h (by simp)
    next hav =>
    split at h
    · exact absurd h (by simp)
    next hpay =>
    simp only [StartResult.quote.injEq] at h
    obtain ⟨hq, -, -, hma, -, -⟩ := h
    subst hma
    exact hq.symm
  · intro qreq ma
    simp only [startClamp, max_def, min_def]
    repeat' split
    all_goals omega
  · intro db u eid ti q1 q2 now
    match u with
    | none => rfl
    | some u0 =>
      simp only [startRun]
      by_cases h1 : ¬ isValidOid eid = true
      · rw [if_pos h1, if_pos h1]
      · rw [if_neg h1, if_neg h1]
        cases hev : findEvent db eid with
        | none => rfl
        | some ev =>
          simp only
          by_cases h2 : ti < 0
          · rw [if_pos h2, if_pos h2]
          · rw [if_neg h2, if_neg h2]
            cases hget : ev.tiers.get? ti.toNat with
            | none => rfl
            | some tier =>
              simp only
              by_cases h3 : ¬ tierSalesOpen tier now = true
              · rw [if_pos h3, if_pos h3]
              · rw [if_neg h3, if_neg h3]
                by_cases h4 : (tierAvailability db ev.id ti.toNat tier).available = 0
                · rw [if_pos h4, if_pos h4]
                · rw [if_neg h4, if_neg h4]
                  by_cases h5 : findPayoutAddress db ev = ""
                  · rw [if_pos h5, if_pos h5]
                  · rw [if_neg h5, if_neg h5]
                    simp [isQuote]

def tierC5 : Tier := ⟨"GA", 1, 10, 100, none, none⟩

def evC5 : Event := ⟨eidW, "published", [tierC5], none, none, none,
  some DEFAULT_PAYOUT_ADDRESS, none, none, none, none⟩

def dbC5 : Db := ⟨[evC5], none, [], [], none, none, 0⟩

/-- C5 counterexample: per-order limit 100 with only 10 available —
requesting 50 yields a quote of 50 units, while the claim's clamp formula
`max(1, min(requested, per_order_limit_or_available, available))` gives
10: the code ignores the available count once a positive per-order limit
exists. -/
theorem clamp_ignores_available_cex :
    startRun dbC5 (some "u1") eidW 0 50 0
      = .quote 50 1 50 100 DEFAULT_PAYOUT_ADDRESS 8453 ∧
    (tierAvailability dbC5 eidW 0 tierC5).available = 10 ∧
    specClampQuantity 50 tierC5.per_order_limit
      (tierAvailability dbC5 eidW 0 tierC5).available = 10 ∧
    (50 : Nat) ≠ 10 := by
  refine ⟨?_, ?_, ?_, by decide⟩
  · with_unfolding_all rfl
  · with_unfolding_all rfl
  · with_unfolding_all rfl

def tierC5b : Tier := ⟨"GA", 1, 10, 2, none, none⟩

def evC5b : Event := ⟨eidW, "published", [tierC5b], none, none, none,
  some DEFAULT_PAYOUT_ADDRESS, none, none, none, none⟩

def dbC5b : Db := ⟨[evC5b], none, [], [], none, none, 0⟩

/-- Witness for C5: the claim's own example — per-order limit 2,
available 10, requesting 5 yields a quote of 2 units, matching
`startClamp`. -/
theorem start_quantity_clamp_witness :
    startRun dbC5b (some "u1") eidW 0 5 0
      = .quote 2 1 2 2 DEFAULT_PAYOUT_ADDRESS 8453 ∧
    (2 : Nat) = (startClamp 5 2).toNat := by
  refine ⟨by with_unfolding_all rfl, ?_⟩
  exact start_quantity_clamp.1 dbC5b "u1" eidW 0 5 0 2 1 2 2 DEFAULT_PAYOUT_ADDRESS 8453
    (by with_unfolding_all rfl)

/-- C6 (amended): once the earlier checks pass, a completion claim is
rejected with `amount_mismatch` if and only if the quoted amount is
positive and the absolute difference between the quoted amount and the
claimed amount AFTER rounding to 6 decimal places (`paidAmount`, which is
`-1` for an unparseable amount) exceeds 1e-6; when the quoted amount is
not positive the check is skipped. -/
theorem amount_check_rounded_iff :
    ∀ (db : Db) (u eid : String) (ti qty cid : Int) (fa ta : String) (amt : Option ℚ)
      (bpid bstat : String) (braw : Option String) (th : String) (now : Int)
      (ev : Event) (tier : Tier),
      eid ≠ "" → 0 < qty → cid ≠ 0 → pyStrip ta ≠ "" → isValidOid eid = true →
      findEvent db eid = some ev → ¬ ti < 0 → ev.tiers.get? ti.toNat = some tier →
      ¬ ((tierAvailability db ev.id ti.toNat tier).available : Int) < qty →
      ((completeRun db (some u)
          ⟨some eid, ti, qty, fa, ta, cid, amt, bpid, bstat, braw, th⟩ now).1
          = .err "amount_mismatch" 400
        ↔ (0 < round6 (tier.price * ((qty : ℤ) : ℚ)) ∧
           1/1000000 <
             |paidAmount ⟨some eid, ti, qty, fa, ta, cid, amt, bpid, bstat, braw, th⟩
               - round6 (tier.price * ((qty : ℤ) : ℚ))|)) := by
  intro db u eid ti qty cid fa ta amt bpid bstat braw th now ev tier
  intro heid hq hcid hta hoid hev hti hget hav
  have hget2 : ev.tiers[ti.toNat]? = some tier := by
    rw [← List.get?_eq_getElem?]; exact hget
  by_cases hA : (0 < round6 (tier.price * ((qty : ℤ) : ℚ)) ∧
      1/1000000 <
        |paidAmount ⟨some eid, ti, qty, fa, ta, cid, amt, bpid, bstat, braw, th⟩
          - round6 (tier.price * ((qty : ℤ) : ℚ))|)
  · have hd : completeDecide db (some u)
        ⟨some eid, ti, qty, fa, ta, cid, amt, bpid, bstat, braw, th⟩
        = .error ("amount_mismatch", 400) := by
      simp only [completeDecide]
      simp [heid, hq, hcid, hta, hoid, hev, hti, hget2, hav, hA.1]
      simpa using hA.2
    rw [completeRun_err hd]
    exact iff_of_true rfl hA
  · have hd : completeDecide db (some u)
        ⟨some eid, ti, qty, fa, ta, cid, amt, bpid, bstat, braw, th⟩
        = .ok ⟨u, ev, ti.toNat, tier, round6 (tier.price * ((qty : ℤ) : ℚ))⟩ := by
      simp only [completeDecide]
      simp [heid, hq, hcid, hta, hoid, hev, hti, hget2, hav]
      intro h1
      simpa using le_of_not_lt (not_and.mp hA h1)
    rw [completeRun_ok hd]
    simp only [completeWrites]
    constructor
    · intro hcontra
      simp at hcontra
    · intro hcontra
      exact absurd hcontra hA

/-- C6 counterexample: the quote is 10 USDC; the claimed amount
10.0000014 differs from it by 1.4e-6 > 1e-6, so the claim requires an
`amount_mismatch` rejection, yet the call settles successfully because
the claimed amount is first rounded to 6 decimals (10.000001, within
tolerance). -/
theorem amount_tolerance_cex :
    (completeRun dbW2 (some "u1")
        ⟨some eidW, 0, 1, "", DEFAULT_PAYOUT_ADDRESS, 8453, some (10 + 14/10000000),
         "bpC6", "succeeded", none, ""⟩ 0).1
      = .ok 0 (some "bpC6") ∧
    (0 : ℚ) < round6 ((10 : ℚ) * 1) ∧
    (1 : ℚ)/1000000 < |(10 + 14/10000000 : ℚ) - round6 ((10 : ℚ) * 1)| := by
  refine ⟨by with_unfolding_all rfl, ?_, ?_⟩
  · with_unfolding_all decide
  · with_unfolding_all decide

/-- Witness for C6: the rounded-amount criterion at concrete inputs — a
claim of 5 USDC against a 10 USDC quote is rejected with
`amount_mismatch`. -/
theorem amount_check_rounded_iff_witness :
    (completeRun dbW2 (some "u1")
        ⟨some eidW, 0, 1, "", DEFAULT_PAYOUT_ADDRESS, 8453, some 5,
         "bpC6w", "succeeded", none, ""⟩ 3).1
      = .err "amount_mismatch" 400 := by
  have h := amount_check_rounded_iff dbW2 "u1" eidW 0 1 8453 "" DEFAULT_PAYOUT_ADDRESS
    (some 5) "bpC6w" "succeeded" none "" 3 evW2 tierW2
    (by decide) (by decide) (by decide) (by with_unfolding_all decide)
    (by with_unfolding_all decide) (by with_unfolding_all rfl) (by decide)
    (by with_unfolding_all rfl) (by with_unfolding_all decide)
  exact h.mpr (by with_unfolding_all decide)

lemma completeDecide_chainId {db : Db} {u : Option String} (p : CompletePayload)
    {c1 c2 : Int} (h1 : c1 ≠ 0) (h2 : c2 ≠ 0) :
    completeDecide db u { p with chainId := c1 }
      = completeDecide db u { p with chainId := c2 } := by
  match u with
  | none => rfl
  | some u0 =>
    simp only [completeDecide]
    cases hpe : p.eventId with
    | none => rfl
    | some eid => simp [h1, h2, paidAmount]

/-- C7 (amended): the completion operation performs no network check:
beyond the requirement that the chain id be nonzero (part of payload
validity), the outcome is identical for any two chain ids, and no call
ever fails with a `network_mismatch` error. -/
theorem complete_no_network_check :
    (∀ (db : Db) (u : Option String) (p : CompletePayload) (now : Int) (c1 c2 : Int),
      c1 ≠ 0 → c2 ≠ 0 →
      (completeRun db u { p with chainId := c1 } now).1
        = (completeRun db u { p with chainId := c2 } now).1) ∧
    (∀ (db : Db) (u : Option String) (p : CompletePayload) (now : Int) (s : Nat),
      (completeRun db u p now).1 ≠ .err "network_mismatch" s) := by
  constructor
  · intro db u p now c1 c2 h1 h2
    unfold completeRun completeAt
    rw [completeDecide_chainId p h1 h2]
    cases h : completeDecide db u { p with chainId := c2 } with
    | error es => rfl
    | ok v => simp [completeWrites]
  · intro db u p now s hcontra
    cases h : completeDecide db u p with
    | error es =>
      rw [completeRun_err h] at hcontra
      have hco := completeDecide_error_codes h
      simp only [CompleteResult.err.injEq] at hcontra
      rcases hco with h1|h1|h1|h1|h1|h1|h1 <;> rw [h1] at hcontra <;> simp at hcontra
    | ok v =>
      rw [completeRun_ok h] at hcontra
      simp [completeWrites] at hcontra

/-- C7 counterexample: a completion claim on chain id 1 — not the
configured Base mainnet chain id 8453 — is settled successfully and a
ticket is written, with no `network_mismatch` error. -/
theorem network_mismatch_cex :
    (completeRun dbC4 (some "u1")
        ⟨some eidW, 0, 1, "", DEFAULT_PAYOUT_ADDRESS, 1, some 10, "bpC7", "succeeded",
         none, ""⟩ 0).1
      = .ok 0 (some "bpC7") ∧
    (1 : Int) ≠ (NETS ACTIVE_NETWORK).chain_id ∧
    ((completeRun dbC4 (some "u1")
        ⟨some eidW, 0, 1, "", DEFAULT_PAYOUT_ADDRESS, 1, some 10, "bpC7", "succeeded",
         none, ""⟩ 0).2.tickets.getD []).length = 1 := by
  refine ⟨by with_unfolding_all rfl, by decide, by with_unfolding_all rfl⟩

/-- Witness for C7: chain ids 5 and 7 give the same outcome on a concrete
database, and the concrete run never yields `network_mismatch`. -/
theorem complete_no_network_check_witness :
    (completeRun dbW2 (some "u1") { pW2 with chainId := 5 } 0).1
      = (completeRun dbW2 (some "u1") { pW2 with chainId := 7 } 0).1 ∧
    (completeRun dbW2 (some "u1") pW2 0).1 ≠ .err "network_mismatch" 400 :=
  ⟨complete_no_network_check.1 dbW2 (some "u1") pW2 0 5 7 (by decide) (by decide),
   complete_no_network_check.2 dbW2 (some "u1") pW2 0 400⟩

lemma completeDecide_toAddr {db : Db} {u : Option String} (p : CompletePayload)
    {t1 t2 : String} (h1 : pyStrip t1 ≠ "") (h2 : pyStrip t2 ≠ "") :
    completeDecide db u { p with toAddr := t1 }
      = completeDecide db u { p with toAddr := t2 } := by
  match u with
  | none => rfl
  | some u0 =>
    simp only [completeDecide]
    cases hpe : p.eventId with
    | none => rfl
    | some eid => simp [h1, h2, paidAmount]

/-- C8 (amended): the completion operation performs no recipient check:
the claimed paid-to address is only required to be non-empty after
stripping, the outcome is identical for any two such addresses (matching
the resolved payout address or not), and no call ever fails with a
`recipient_mismatch` error. -/
theorem complete_no_recipient_check :
    (∀ (db : Db) (u : Option String) (p : CompletePayload) (now : Int) (t1 t2 : String),
      pyStrip t1 ≠ "" → pyStrip t2 ≠ "" →
      (completeRun db u { p with toAddr := t1 } now).1
        = (completeRun db u { p with toAddr := t2 } now).1) ∧
    (∀ (db : Db) (u : Option String) (p : CompletePayload) (now : Int) (s : Nat),
      (completeRun db u p now).1 ≠ .err "recipient_mismatch" s) := by
  constructor
  · intro db u p now t1 t2 h1 h2
    unfold completeRun completeAt
    rw [completeDecide_toAddr p h1 h2]
    cases h : completeDecide db u { p with toAddr := t2 } with
    | error es => rfl
    | ok v => simp [completeWrites]
  · intro db u p now s hcontra
    cases h : completeDecide db u p with
    | error es =>
      rw [completeRun_err h] at hcontra
      have hco := completeDecide_error_codes h
      simp only [CompleteResult.err.injEq] at hcontra
      rcases hco with h1|h1|h1|h1|h1|h1|h1 <;> rw [h1] at hcontra <;> simp at hcontra
    | ok v =>
      rw [completeRun_ok h] at hcontra
      simp [completeWrites] at hcontra

def addrA : String := "0xaaaaaaaaaaaaaaaaaaaaaaaaaaaaaaaaaaaaaaaa"

/-- C8 counterexample: the payout address resolved for the event is the
global default, the claim says it paid a different address `addrA`, and
the completion still settles successfully — no `recipient_mismatch`. -/
theorem recipient_mismatch_cex :
    (completeRun dbW2 (some "u1")
        ⟨some eidW, 0, 1, "", addrA, 8453, some 10, "bpC8", "succeeded", none, ""⟩ 0).1
      = .ok 0 (some "bpC8") ∧
    findPayoutAddress dbW2 evW2 = DEFAULT_PAYOUT_ADDRESS ∧
    addrA ≠ DEFAULT_PAYOUT_ADDRESS := by
  refine ⟨by with_unfolding_all rfl, by with_unfolding_all rfl, by decide⟩

/-- Witness for C8: two different non-empty paid-to addresses give the
same outcome on a concrete database, and a concrete run never yields
`recipient_mismatch`. -/
theorem complete_no_recipient_check_witness :
    (completeRun dbW2 (some "u1") { pW2 with toAddr := addrA } 0).1
      = (completeRun dbW2 (some "u1") { pW2 with toAddr := DEFAULT_PAYOUT_ADDRESS } 0).1 ∧
    (completeRun dbW2 (some "u1") pW2 0).1 ≠ .err "recipient_mismatch" 400 :=
  ⟨complete_no_recipient_check.1 dbW2 (some "u1") pW2 0 addrA DEFAULT_PAYOUT_ADDRESS
      (by with_unfolding_all decide) (by with_unfolding_all decide),
   complete_no_recipient_check.2 dbW2 (some "u1") pW2 0 400⟩

/-- C9 (amended): payout resolution tries the levels in strict order —
event fields, organizers record, users record, global fallback — but at
the event level only the FIRST non-empty of the five fields is taken and
then validated (a non-empty invalid field shadows later valid ones); a
candidate is "valid" when, after stripping, it starts with `0x` and is
42 characters long; within an organizers or users document the candidate
fields are validated one by one and the first valid one is returned, so
when the document's `payout_address` does not validate but its
`wallet_address` does, the wallet address is the result. -/
theorem payout_resolution_order :
    (∀ (db : Db) (ev : Event), eventLevelCand ev ≠ "" →
      findPayoutAddress db ev = eventLevelCand ev) ∧
    (∀ (db : Db) (ev : Event), eventLevelCand ev = "" →
      orgsCand db (evOrgOid ev) ≠ "" →
      findPayoutAddress db ev = orgsCand db (evOrgOid ev)) ∧
    (∀ (db : Db) (ev : Event), eventLevelCand ev = "" →
      orgsCand db (evOrgOid ev) = "" → usersCand db (evOrgOid ev) ≠ "" →
      findPayoutAddress db ev = usersCand db (evOrgOid ev)) ∧
    (∀ (db : Db) (ev : Event), eventLevelCand ev = "" →
      orgsCand db (evOrgOid ev) = "" → usersCand db (evOrgOid ev) = "" →
      findPayoutAddress db ev = normAddr (some DEFAULT_PAYOUT_ADDRESS)) ∧
    (∀ d : WalletDoc, normAddr d.payout_address = "" →
      normAddr d.wallet_address ≠ "" → docCand d = normAddr d.wallet_address) := by
  refine ⟨?_, ?_, ?_, ?_, ?_⟩
  · intro db ev h1
    simp [findPayoutAddress, h1]
  · intro db ev h1 h2
    simp [findPayoutAddress, h1, h2]
  · intro db ev h1 h2 h3
    simp [findPayoutAddress, h1, h2, h3]
  · intro db ev h1 h2 h3
    simp [findPayoutAddress, h1, h2, h3]
  · intro d h1 h2
    simp [docCand, h1, h2]

def evC9 : Event := ⟨eidW, "published", [], none, none, none,
  some "not-an-address", none, none, none, some addrA⟩

def dbC9 : Db := ⟨[evC9], none, [], [], none, none, 0⟩

/-- C9 counterexample: the event's `payout_address` is non-empty but not
a valid address, and its `wallet_address` is a syntactically valid one —
yet resolution returns the global fallback, not the first syntactically
valid candidate: `_pick` grabs the first non-empty field and the whole
event level is skipped when it fails validation. -/
theorem payout_first_candidate_cex :
    findPayoutAddress dbC9 evC9 = DEFAULT_PAYOUT_ADDRESS ∧
    normAddr evC9.wallet_address = addrA ∧
    addrA ≠ "" ∧ addrA ≠ DEFAULT_PAYOUT_ADDRESS := by
  refine ⟨by with_unfolding_all rfl, by with_unfolding_all rfl, by decide, by decide⟩

def orgidW : String := "68a85a8e5912f230d6cdd038"

def evC9u : Event := ⟨eidW, "published", [], some orgidW, none, none,
  none, none, none, none, none⟩

def dbC9u : Db := ⟨[evC9u], none, [], [], none,
  some [(orgidW, ⟨none, some addrA, none, none, none, none⟩)], 0⟩

/-- Witness for C9: an event with no payout fields, no organizers
collection, and a users document holding only a valid `wallet_address` —
resolution returns that wallet address, not the global fallback. -/
theorem payout_resolution_order_witness :
    findPayoutAddress dbC9u evC9u = usersCand dbC9u (evOrgOid evC9u) ∧
    usersCand dbC9u (evOrgOid evC9u) = addrA ∧
    addrA ≠ DEFAULT_PAYOUT_ADDRESS := by
  refine ⟨?_, by with_unfolding_all rfl, by decide⟩
  exact payout_resolution_order.2.2.1 dbC9u evC9u (by with_unfolding_all rfl)
    (by with_unfolding_all rfl) (by with_unfolding_all decide)

/-- C10: the completion operation performs no sales-window check — under
a payload that passes the payload/event/tier/availability/amount checks,
tickets are issued even at an instant when the tier's sales window is
closed, while quote creation at that same instant is refused with the
window-closed redirect. -/
theorem complete_ignores_sales_window :
    ∀ (db : Db) (u eid : String) (ti qty cid : Int) (fa ta : String) (amt : Option ℚ)
      (bpid bstat : String) (braw : Option String) (th : String) (now : Int)
      (ev : Event) (tier : Tier) (qreq : Int),
      eid ≠ "" → 0 < qty → cid ≠ 0 → pyStrip ta ≠ "" → isValidOid eid = true →
      findEvent db eid = some ev → ¬ ti < 0 → ev.tiers.get? ti.toNat = some tier →
      ¬ ((tierAvailability db ev.id ti.toNat tier).available : Int) < qty →
      ¬ (0 < round6 (tier.price * ((qty : ℤ) : ℚ)) ∧
         1/1000000 <
           |paidAmount ⟨some eid, ti, qty, fa, ta, cid, amt, bpid, bstat, braw, th⟩
             - round6 (tier.price * ((qty : ℤ) : ℚ))|) →
      tierSalesOpen tier now = false →
      (completeRun db (some u)
          ⟨some eid, ti, qty, fa, ta, cid, amt, bpid, bstat, braw, th⟩ now).1
          = .ok db.nextId (strOrNone (pyStrip bpid)) ∧
      ((completeRun db (some u)
          ⟨some eid, ti, qty, fa, ta, cid, amt, bpid, bstat, braw, th⟩ now).2.tickets.getD
            []).length
          = (db.tickets.getD []).length + qty.toNat ∧
      startRun db (some u) eid ti qreq now = .windowClosed := by
  intro db u eid ti qty cid fa ta amt bpid bstat braw th now ev tier qreq
  intro heid hq hcid hta hoid hev hti hget hav hA hw
  have hget2 : ev.tiers[ti.toNat]? = some tier := by
    rw [← List.get?_eq_getElem?]; exact hget
  have hd : completeDecide db (some u)
      ⟨some eid, ti, qty, fa, ta, cid, amt, bpid, bstat, braw, th⟩
      = .ok ⟨u, ev, ti.toNat, tier, round6 (tier.price * ((qty : ℤ) : ℚ))⟩ := by
    simp only [completeDecide]
    simp [heid, hq, hcid, hta, hoid, hev, hti, hget2, hav]
    intro h1
    simpa using le_of_not_lt (not_and.mp hA h1)
  refine ⟨?_, ?_, ?_⟩
  · rw [completeRun_ok hd]
    simp [completeWrites]
  · rw [completeRun_ok hd]
    simp [completeWrites]
  · simp only [startRun]
    simp [hoid, hev, hti, hget2, hw]

def tierC10 : Tier := ⟨"GA", 10, 5, 0, none, some (-5)⟩

def evC10 : Event := ⟨eidW, "published", [tierC10], none, none, none,
  some DEFAULT_PAYOUT_ADDRESS, none, none, none, none⟩

def dbC10 : Db := ⟨[evC10], none, [], [], none, none, 0⟩

/-- Witness for C10: the tier's sales window ended at time −5, the call
arrives at time 100 — completion still issues the ticket while quote
creation refuses with the window-closed redirect. -/
theorem complete_ignores_sales_window_witness :
    (completeRun dbC10 (some "u1")
        ⟨some eidW, 0, 1, "", DEFAULT_PAYOUT_ADDRESS, 8453, some 10, "bpC10", "succeeded",
         none, ""⟩ 100).1
      = .ok dbC10.nextId (strOrNone (pyStrip "bpC10")) ∧
    ((completeRun dbC10 (some "u1")
        ⟨some eidW, 0, 1, "", DEFAULT_PAYOUT_ADDRESS, 8453, some 10, "bpC10", "succeeded",
         none, ""⟩ 100).2.tickets.getD []).length
      = (dbC10.tickets.getD []).length + (1 : Int).toNat ∧
    startRun dbC10 (some "u1") eidW 0 1 100 = .windowClosed :=
  complete_ignores_sales_window dbC10 "u1" eidW 0 1 8453 "" DEFAULT_PAYOUT_ADDRESS
    (some 10) "bpC10" "succeeded" none "" 100 evC10 tierC10 1
    (by decide) (by decide) (by decide) (by with_unfolding_all decide)
    (by with_unfolding_all decide) (by with_unfolding_all rfl) (by decide)
    (by with_unfolding_all rfl) (by with_unfolding_all decide)
    (by with_unfolding_all decide) (by with_unfolding_all rfl)

end Checkout
